import Mathlib

/-!
Verification of the furnace PID1 container init process (furnace/pid1.py).

The program is embedded as an event-trace semantics: every OS call a step
performs is recorded as an `Event`, and every step returns the list of events
it emitted together with an `Except` outcome.  Whether each underlying OS
primitive succeeds is decided by oracles collected in a `World` record, so a
single run of `PID1.run` is a pure function of the configuration, the world
and the data delivered by the final blocking read.

The constant tables (NAMESPACES, CONTAINER_MOUNTS, CONTAINER_DEVICE_NODES,
HOSTNAME) and the libc constants live in modules of this repository that are
not part of the supplied source; they are modelled from the specification and
marked as such below.
-/

namespace Furnace

/-- Modelled from the spec: missing libc module constant, standard Linux value. -/
def CLONE_NEWNS : Nat := 0x00020000

/-- Modelled from the spec: missing libc module constant, standard Linux value. -/
def CLONE_NEWUTS : Nat := 0x04000000

/-- Modelled from the spec: missing libc module constant, standard Linux value. -/
def CLONE_NEWIPC : Nat := 0x08000000

/-- Modelled from the spec: missing libc module constant, standard Linux value. -/
def CLONE_NEWPID : Nat := 0x20000000

/-- Modelled from the spec: missing libc module constant, standard Linux value. -/
def CLONE_NEWNET : Nat := 0x40000000

/-- Modelled from the spec: missing libc module constant, standard Linux value. -/
def MS_REC : Nat := 0x4000

/-- Modelled from the spec: missing libc module constant, standard Linux value. -/
def MS_SLAVE : Nat := 0x80000

/-- Modelled from the spec: missing libc module constant, standard Linux value. -/
def MNT_DETACH : Nat := 2

/-- POSIX file-kind bit for a character special file (stat.S_IFCHR). -/
def S_IFCHR : Nat := 0o020000

/-- POSIX file-kind bit for a block special file (stat.S_IFBLK). -/
def S_IFBLK : Nat := 0o060000

/-- Mask of the file-kind bits of a mode (stat.S_IFMT). -/
def S_IFMT : Nat := 0o170000

/-- Packing of a (major, minor) pair into a device number, as os.makedev
computes it (glibc formula). -/
def makedev (major minor : Nat) : Nat :=
  ((major &&& 0xfffff000) <<< 32) ||| ((major &&& 0xfff) <<< 8) |||
  ((minor &&& 0xffffff00) <<< 12) ||| (minor &&& 0xff)

/-- Kind of a device node: character or block special file. -/
inductive DevKind where
  | char : DevKind
  | block : DevKind
  deriving DecidableEq, Repr

/-- One entry of the device-node table, with the fields the spec gives to
DeviceNodeSpec: name, major, minor, mode, kind. -/
structure DeviceNode where
  name : String
  major : Nat
  minor : Nat
  mode : Nat
  kind : DevKind
  deriving DecidableEq, Repr

/-- One entry of the mount table: source, destination, filesystem type,
flags, optional option list. -/
structure MountEntry where
  source : String
  destination : String
  fstype : String
  flags : Nat
  options : Option (List String)
  deriving DecidableEq, Repr

/-- Modelled from the spec: the NAMESPACES table of the missing config
module — an ordered mapping from namespace-kind name to its isolation flag. -/
def NAMESPACES : List (String × Nat) :=
  [("mnt", CLONE_NEWNS), ("uts", CLONE_NEWUTS), ("ipc", CLONE_NEWIPC),
   ("net", CLONE_NEWNET), ("pid", CLONE_NEWPID)]

/-- Modelled from the spec: the CONTAINER_MOUNTS table of the missing config
module — proc, sysfs, devpts, and tmpfs for /tmp and /run, parents before
children. -/
def CONTAINER_MOUNTS : List MountEntry :=
  [⟨"proc", "/proc", "proc", 0, none⟩,
   ⟨"sysfs", "/sys", "sysfs", 0, none⟩,
   ⟨"devpts", "/dev/pts", "devpts", 0, some ["gid=5", "mode=620"]⟩,
   ⟨"tmpfs", "/tmp", "tmpfs", 0, none⟩,
   ⟨"tmpfs", "/run", "tmpfs", 0, none⟩]

/-- Modelled from the spec: the fixed CONTAINER_DEVICE_NODES table of the
missing config module.  The spec names the standard character devices but
does not fix the per-entry mode and kind values; they are filled in here with
the values the code actually applies (character kind, mode 0o666). -/
def CONTAINER_DEVICE_NODES : List DeviceNode :=
  [⟨"null", 1, 3, 0o666, DevKind.char⟩,
   ⟨"zero", 1, 5, 0o666, DevKind.char⟩,
   ⟨"random", 1, 8, 0o666, DevKind.char⟩,
   ⟨"urandom", 1, 9, 0o666, DevKind.char⟩,
   ⟨"tty", 5, 0, 0o666, DevKind.char⟩,
   ⟨"console", 5, 1, 0o666, DevKind.char⟩]

/-- Modelled from the spec: the fixed constant hostname of the missing config
module. -/
def HOSTNAME : String := "localhost"

/-- Observable OS effects of the program, one constructor per primitive. -/
inductive Event where
  | mountCall (source target : String) (fstype : Option String) (flags : Nat)
      (options : Option String) : Event
  | mkdirParents (path : String) : Event
  | chdir (path : String) : Event
  | pivotRootCall (newRoot putOld : String) : Event
  | chroot (path : String) : Event
  | mknodCall (path : String) (mode : Nat) (dev : Nat) : Event
  | chmodCall (path : String) (mode : Nat) : Event
  | unshareCall (flags : Nat) : Event
  | warn (msg : String) : Event
  | debugLog (msg : String) : Event
  | setsid : Event
  | setSigchldIgnore : Event
  | umount2Call (path : String) (flags : Nat) : Event
  | rmdir (path : String) : Event
  | sethostnameCall (name : String) : Event
  | fdWrite (fd : Nat) (data : String) : Event
  | fdRead (fd : Nat) (count : Nat) : Event
  | runTmpfiles (dest : String) : Event
  deriving DecidableEq, Repr

/-- Errors a run can abort with: ValueError from the identity check, an OS
error from a failing primitive, or CalledProcessError from check_output. -/
inductive Err where
  | valueError (msg : String) : Err
  | osError (call : String) : Err
  | calledProcessError (status : Nat) : Err
  deriving DecidableEq, Repr

/-- Result of one step: the events it emitted and its outcome. -/
abbrev Tr := List Event × Except Err Unit

/-- Sequencing of two steps: if the first fails, the second never runs and
only the first step's events are observed. -/
def seqR (a b : Tr) : Tr :=
  match a.2 with
  | Except.error e => (a.1, Except.error e)
  | Except.ok _ => (a.1 ++ b.1, b.2)

/-- Oracles deciding the outcome of every OS primitive the program touches,
plus the inputs the program reads from the system. -/
structure World where
  pid : Nat
  nsPathPresent : String → Bool
  setsidOk : Bool
  unshareOk : Nat → Bool
  mountOk : String → Bool
  mkdirOk : String → Bool
  chdirOk : String → Bool
  pivotOk : Bool
  chrootOk : Bool
  mknodOk : String → Bool
  chmodOk : String → Bool
  tmpfilesPresent : Bool
  tmpfilesRun : String → Except Nat String
  umountOk : Bool
  rmdirOk : Bool
  sethostnameOk : Bool
  writeOk : Bool

/-- Constructor arguments of PID1: resolved root directory, the two control
channel descriptors, and the networking-isolation flag. -/
structure PID1Cfg where
  rootDir : String
  controlRead : Nat
  controlWrite : Nat
  isolateNetworking : Bool

/-- Shape shared by every fallible OS primitive of the program: if the
oracle grants the call it emits its one event and succeeds, otherwise it
emits nothing and fails with an OS error named after the call. -/
def atomIf (c : Bool) (ev : Event) (call : String) : Tr :=
  if c then ([ev], Except.ok ()) else ([], Except.error (Err.osError call))

/-- Embedding of the libc mount wrapper call. -/
def atomMount (w : World) (src tgt : String) (fstype : Option String)
    (flags : Nat) (opts : Option String) : Tr :=
  atomIf (w.mountOk tgt) (Event.mountCall src tgt fstype flags opts) "mount"

/-- Embedding of Path.mkdir with parents=True, exist_ok=True. -/
def atomMkdir (w : World) (path : String) : Tr :=
  atomIf (w.mkdirOk path) (Event.mkdirParents path) "mkdir"

/-- Embedding of os.chdir. -/
def atomChdir (w : World) (path : String) : Tr :=
  atomIf (w.chdirOk path) (Event.chdir path) "chdir"

/-- Embedding of the libc pivot_root wrapper call. -/
def atomPivot (w : World) (newRoot putOld : String) : Tr :=
  atomIf w.pivotOk (Event.pivotRootCall newRoot putOld) "pivot_root"

/-- Embedding of os.chroot. -/
def atomChroot (w : World) (path : String) : Tr :=
  atomIf w.chrootOk (Event.chroot path) "chroot"

/-- Embedding of os.mknod. -/
def atomMknod (w : World) (path : String) (mode dev : Nat) : Tr :=
  atomIf (w.mknodOk path) (Event.mknodCall path mode dev) "mknod"

/-- Embedding of Path.chmod. -/
def atomChmod (w : World) (path : String) (mode : Nat) : Tr :=
  atomIf (w.chmodOk path) (Event.chmodCall path mode) "chmod"

/-- Embedding of the libc umount2 wrapper call. -/
def atomUmount2 (w : World) (path : String) (flags : Nat) : Tr :=
  atomIf w.umountOk (Event.umount2Call path flags) "umount2"

/-- Embedding of os.rmdir. -/
def atomRmdir (w : World) (path : String) : Tr :=
  atomIf w.rmdirOk (Event.rmdir path) "rmdir"

/-- Embedding of socket.sethostname. -/
def atomSethostname (w : World) (name : String) : Tr :=
  atomIf w.sethostnameOk (Event.sethostnameCall name) "sethostname"

/-- Embedding of os.setsid. -/
def do_setsid (w : World) : Tr :=
  atomIf w.setsidOk Event.setsid "setsid"

/-- PID1.enable_zombie_reaping: signal.signal(SIGCHLD, SIG_IGN). -/
def enable_zombie_reaping : Tr := ([Event.setSigchldIgnore], Except.ok ())

/-- Loop body of PID1.create_namespaces, carried in source order with the
loop state (warning events emitted so far, accumulated unshare flags): skip
the PID flag unconditionally, skip the network flag when networking is not
isolated, OR in a flag whose namespace path is present, warn otherwise. -/
def nsLoop (iso : Bool) (pres : String → Bool) (es : List Event) (acc : Nat) :
    List (String × Nat) → List Event × Nat
  | [] => (es, acc)
  | (name, flag) :: rest =>
    if flag = CLONE_NEWPID then nsLoop iso pres es acc rest
    else if flag = CLONE_NEWNET ∧ iso = false then nsLoop iso pres es acc rest
    else if pres name then nsLoop iso pres es (acc ||| flag) rest
    else nsLoop iso pres
      (es ++ [Event.warn ("Namespace type " ++ name ++ " not supported on this system")])
      acc rest

/-- PID1.create_namespaces over an explicit namespace table: compute the flag
set via the loop, then perform the single unshare call. -/
def create_namespaces_t (table : List (String × Nat)) (cfg : PID1Cfg) (w : World) : Tr :=
  let r := nsLoop cfg.isolateNetworking w.nsPathPresent [] 0 table
  if w.unshareOk r.2 then (r.1 ++ [Event.unshareCall r.2], Except.ok ())
  else (r.1, Except.error (Err.osError "unshare"))

/-- PID1.create_namespaces with the fixed NAMESPACES table. -/
def create_namespaces (cfg : PID1Cfg) (w : World) : Tr :=
  create_namespaces_t NAMESPACES cfg w

/-- Flag set requested by the namespace-isolation step (the argument of its
unshare call). -/
def requested_unshare_flags (cfg : PID1Cfg) (w : World) : Nat :=
  (nsLoop cfg.isolateNetworking w.nsPathPresent [] 0 NAMESPACES).2

/-- PID1.setup_root_mount: non-propagating remount of /, create old_root
under the target root, chdir there, pivot_root, chroot into the current
directory. -/
def setup_root_mount (cfg : PID1Cfg) (w : World) : Tr :=
  seqR (atomMount w "none" "/" none (MS_REC ||| MS_SLAVE) none)
    (seqR (atomMkdir w (cfg.rootDir ++ "/old_root"))
      (seqR (atomChdir w cfg.rootDir)
        (seqR (atomPivot w "." "old_root")
          (atomChroot w "."))))

/-- Events of a successful PID1.setup_root_mount. -/
def setup_root_mount_tr (cfg : PID1Cfg) : List Event :=
  [Event.mountCall "none" "/" none (MS_REC ||| MS_SLAVE) none,
   Event.mkdirParents (cfg.rootDir ++ "/old_root"),
   Event.chdir cfg.rootDir,
   Event.pivotRootCall "." "old_root",
   Event.chroot "."]

/-- Body of the PID1.mount_defaults loop for one mount-table entry: join the
options, make sure the destination exists, mount. -/
def mountOne (w : World) (m : MountEntry) : Tr :=
  seqR (atomMkdir w m.destination)
    (atomMount w m.source m.destination (some m.fstype) m.flags
      (m.options.map (fun l => String.intercalate "," l)))

/-- PID1.mount_defaults over an explicit mount table. -/
def mount_defaults_t (w : World) : List MountEntry → Tr
  | [] => ([], Except.ok ())
  | m :: rest => seqR (mountOne w m) (mount_defaults_t w rest)

/-- PID1.mount_defaults with the fixed CONTAINER_MOUNTS table. -/
def mount_defaults (w : World) : Tr := mount_defaults_t w CONTAINER_MOUNTS

/-- PID1.create_device_node: mknod with the file-kind bit as the mode (so it
carries no permission bits), then a separate chmod to the requested mode,
because mknod filters its mode argument through the umask. -/
def create_device_node (w : World) (name : String) (major minor mode : Nat)
    (is_block_device : Bool) : Tr :=
  let device_type := if is_block_device then S_IFBLK else S_IFCHR
  let nodepath := "/dev/" ++ name
  seqR (atomMknod w nodepath device_type (makedev major minor))
    (atomChmod w nodepath mode)

/-- PID1.create_default_dev_nodes over an explicit device table: the source
passes only name, major and minor to create_device_node, with the literal
mode 0o666 and the default (character) kind; the entry's own mode and kind
fields are not consulted. -/
def create_default_dev_nodes_t (w : World) : List DeviceNode → Tr
  | [] => ([], Except.ok ())
  | d :: rest =>
      seqR (create_device_node w d.name d.major d.minor 0o666 false)
        (create_default_dev_nodes_t w rest)

/-- PID1.create_default_dev_nodes with the fixed CONTAINER_DEVICE_NODES
table. -/
def create_default_dev_nodes (w : World) : Tr :=
  create_default_dev_nodes_t w CONTAINER_DEVICE_NODES

/-- Loop of PID1.create_loop_devices: block devices loop<i> for i in
range(n), starting at index i. -/
def loopNodes (w : World) (i : Nat) : Nat → Tr
  | 0 => ([], Except.ok ())
  | Nat.succ k =>
      seqR (create_device_node w ("loop" ++ toString i) 7 i 0o660 true)
        (loopNodes w (i + 1) k)

/-- PID1.create_loop_devices: the loop-control character device then eight
block loop devices. -/
def create_loop_devices (w : World) : Tr :=
  seqR (create_device_node w "loop-control" 10 237 0o660 false)
    (loopNodes w 0 8)

/-- One systemd-tmpfiles invocation of PID1.create_tmpfs_dirs: check_output
on the entry destination, raising CalledProcessError on a non-zero exit
status; a non-empty output is logged at debug level. -/
def tmpfsOne (w : World) (m : MountEntry) : Tr :=
  match w.tmpfilesRun m.destination with
  | Except.error status =>
      ([Event.runTmpfiles m.destination],
       Except.error (Err.calledProcessError status))
  | Except.ok out =>
      (Event.runTmpfiles m.destination ::
        (if out = "" then []
         else [Event.debugLog ("systemd-tmpfiles output: " ++ out)]),
       Except.ok ())

/-- Loop of PID1.create_tmpfs_dirs over the mount table: invoke the tool for
every tmpfs-typed entry, stopping at the first failing invocation. -/
def tmpfsLoop (w : World) : List MountEntry → Tr
  | [] => ([], Except.ok ())
  | m :: rest =>
    if m.fstype = "tmpfs" then seqR (tmpfsOne w m) (tmpfsLoop w rest)
    else tmpfsLoop w rest

/-- Warning logged by PID1.create_tmpfs_dirs when the tool is absent. -/
def tmpfilesWarnText : String :=
  "Could not run systemd-tmpfiles, because it does not exist. /tmp and /run will not be populated."

/-- PID1.create_tmpfs_dirs: if /bin/systemd-tmpfiles exists run it for every
tmpfs mount destination, otherwise log a warning and continue. -/
def create_tmpfs_dirs (w : World) : Tr :=
  if w.tmpfilesPresent then tmpfsLoop w CONTAINER_MOUNTS
  else ([Event.warn tmpfilesWarnText], Except.ok ())

/-- PID1.umount_old_root: lazily detach /old_root then remove the
directory. -/
def umount_old_root (w : World) : Tr :=
  seqR (atomUmount2 w "/old_root" MNT_DETACH) (atomRmdir w "/old_root")

/-- Setup steps of PID1.run before create_tmpfs_dirs, in source order:
setsid, zombie reaping, namespaces, root pivot, default mounts, default
device nodes, loop devices. -/
def steps_before_tmpfs (cfg : PID1Cfg) (w : World) : Tr :=
  seqR (do_setsid w)
    (seqR enable_zombie_reaping
      (seqR (create_namespaces cfg w)
        (seqR (setup_root_mount cfg w)
          (seqR (mount_defaults w)
            (seqR (create_default_dev_nodes w)
              (create_loop_devices w))))))

/-- Whole setup sequence of PID1.run after the identity check: the steps
before create_tmpfs_dirs, then create_tmpfs_dirs, umount_old_root and
sethostname(HOSTNAME). -/
def setupSeq (cfg : PID1Cfg) (w : World) : Tr :=
  seqR (steps_before_tmpfs cfg w)
    (seqR (create_tmpfs_dirs w)
      (seqR (umount_old_root w) (atomSethostname w HOSTNAME)))

/-- Events emitted by the tail of a successful PID1.run: the readiness
marker written to the control write descriptor, the debug logs, and the
blocking one-byte read on the control read descriptor. -/
def readyTail (cfg : PID1Cfg) : List Event :=
  [Event.fdWrite cfg.controlWrite "RDY",
   Event.debugLog "Container started",
   Event.fdRead cfg.controlRead 1,
   Event.debugLog "Control pipe closed, stopping"]

/-- PID1.run: identity check (raise ValueError unless getpid() = 1), the
setup sequence, then write the RDY marker, block on the one-byte read and
return 0.  readData is the content delivered by that read (empty string for
end-of-stream); the source discards it. -/
def run (cfg : PID1Cfg) (w : World) (readData : String) :
    List Event × Except Err Nat :=
  if w.pid ≠ 1 then
    ([], Except.error (Err.valueError "We are not actually PID1, exiting for safety reasons"))
  else
    match (setupSeq cfg w).2 with
    | Except.error e => ((setupSeq cfg w).1, Except.error e)
    | Except.ok _ =>
        if w.writeOk then ((setupSeq cfg w).1 ++ readyTail cfg, Except.ok 0)
        else ((setupSeq cfg w).1, Except.error (Err.osError "write"))

/-- File-system view for the device-node claims: a map from path to the
file-kind bits and permission bits of the node there, if any. -/
def FS := String → Option (Nat × Nat)

/-- Point update of the file-system view. -/
def fsSet (fs : FS) (p : String) (v : Nat × Nat) : FS :=
  fun q => if q = p then some v else fs q

/-- Semantics of the node-affecting events on the file-system view, under an
ambient file-creation mask: mknod stores the kind bits of its mode argument
and its permission bits filtered through the umask; chmod replaces the
permission bits of an existing node with its argument's permission bits. -/
def applyEvent (umask : Nat) (fs : FS) : Event → FS
  | Event.mknodCall path mode _ =>
      fsSet fs path
        (mode &&& S_IFMT, (mode &&& 0o7777) &&& (0o7777 ^^^ (umask &&& 0o7777)))
  | Event.chmodCall path m =>
      match fs path with
      | some v => fsSet fs path (v.1, m &&& 0o7777)
      | none => fs
  | _ => fs

/-- Folding the event semantics over a trace. -/
def applyEvents (umask : Nat) (fs : FS) : List Event → FS
  | [] => fs
  | e :: rest => applyEvents umask (applyEvent umask fs e) rest

/-- Detector for control-channel write events. -/
def isWriteEv : Event → Bool
  | Event.fdWrite _ _ => true
  | _ => false

/-- Detector for mount events. -/
def isMountEv : Event → Bool
  | Event.mountCall _ _ _ _ _ => true
  | _ => false

/-- Detector for device-node creation events. -/
def isMknodEv : Event → Bool
  | Event.mknodCall _ _ _ => true
  | _ => false

/-- Detector for unmount events. -/
def isUmount2Ev : Event → Bool
  | Event.umount2Call _ _ => true
  | _ => false

/-- Every event of a step satisfies a property: used for the absence of
control-channel writes and of mount, mknod and umount events in parts of the
trace. -/
def allEv (P : Event → Prop) (t : Tr) : Prop := ∀ e ∈ t.1, P e

/-- Concrete world in which the process is PID 1, every namespace kind is
supported, every OS primitive succeeds, and systemd-tmpfiles is present and
always succeeds with empty output. -/
def wAll : World :=
  ⟨1, fun _ => true, true, fun _ => true, fun _ => true, fun _ => true,
   fun _ => true, true, true, fun _ => true, fun _ => true, true,
   fun _ => Except.ok "", true, true, true, true⟩

/-- Concrete world like wAll except that the process is PID 2. -/
def wNotPid1 : World :=
  ⟨2, fun _ => true, true, fun _ => true, fun _ => true, fun _ => true,
   fun _ => true, true, true, fun _ => true, fun _ => true, true,
   fun _ => Except.ok "", true, true, true, true⟩

/-- Concrete world like wAll except that no namespace kind path is present. -/
def wNoNs : World :=
  ⟨1, fun _ => false, true, fun _ => true, fun _ => true, fun _ => true,
   fun _ => true, true, true, fun _ => true, fun _ => true, true,
   fun _ => Except.ok "", true, true, true, true⟩

/-- Concrete world like wAll except that systemd-tmpfiles is absent. -/
def wNoTool : World :=
  ⟨1, fun _ => true, true, fun _ => true, fun _ => true, fun _ => true,
   fun _ => true, true, true, fun _ => true, fun _ => true, false,
   fun _ => Except.ok "", true, true, true, true⟩

/-- Concrete world like wAll except that every systemd-tmpfiles invocation
exits with status 1. -/
def wTmpErr : World :=
  ⟨1, fun _ => true, true, fun _ => true, fun _ => true, fun _ => true,
   fun _ => true, true, true, fun _ => true, fun _ => true, true,
   fun _ => Except.error 1, true, true, true, true⟩

/-- Concrete configuration with networking isolated. -/
def cfg1 : PID1Cfg := ⟨"/mnt/ctr", 3, 4, true⟩

/-- Concrete configuration with networking not isolated. -/
def cfg0 : PID1Cfg := ⟨"/mnt/ctr", 3, 4, false⟩

lemma seqR_ok {a b : Tr} (h : a.2 = Except.ok ()) : seqR a b = (a.1 ++ b.1, b.2) := by
  unfold seqR
  rw [h]

lemma seqR_err {a b : Tr} {e : Err} (h : a.2 = Except.error e) :
    seqR a b = (a.1, Except.error e) := by
  unfold seqR
  rw [h]

lemma seqR_snd_ok {a b : Tr} :
    (seqR a b).2 = Except.ok () ↔ a.2 = Except.ok () ∧ b.2 = Except.ok () := by
  unfold seqR
  rcases h : a.2 with e | u
  · simp [h]
  · cases u
    rcases hb : b.2 with e2 | u2
    · simp [h, hb]
    · cases u2
      simp [h, hb]

lemma mem_seqR {a b : Tr} {e : Event} (h : e ∈ (seqR a b).1) : e ∈ a.1 ∨ e ∈ b.1 := by
  unfold seqR at h
  rcases ha : a.2 with er | u <;> rw [ha] at h
  · exact Or.inl h
  · exact List.mem_append.mp h

lemma atomIf_true {c : Bool} {ev : Event} {s : String} (h : c = true) :
    atomIf c ev s = ([ev], Except.ok ()) := by
  unfold atomIf
  rw [h]
  simp

lemma atomIf_ok {c : Bool} {ev : Event} {s : String}
    (h : (atomIf c ev s).2 = Except.ok ()) : atomIf c ev s = ([ev], Except.ok ()) := by
  cases c with
  | false => simp [atomIf] at h
  | true => exact atomIf_true rfl

lemma mem_atomIf {c : Bool} {ev e : Event} {s : String}
    (h : e ∈ (atomIf c ev s).1) : e = ev := by
  cases c with
  | false => simp [atomIf] at h
  | true => simpa [atomIf] using h

lemma or_and_eq_zero {a b c : Nat} (ha : a &&& c = 0) (hb : b &&& c = 0) :
    (a ||| b) &&& c = 0 := by
  apply Nat.eq_of_testBit_eq
  intro i
  have h1 : (a &&& c).testBit i = false := by rw [ha]; exact Nat.zero_testBit i
  have h2 : (b &&& c).testBit i = false := by rw [hb]; exact Nat.zero_testBit i
  rw [Nat.testBit_and] at h1 h2
  rw [Nat.testBit_and, Nat.testBit_or, Nat.zero_testBit]
  cases hA : a.testBit i <;> cases hB : b.testBit i <;> cases hC : c.testBit i <;>
    simp_all

lemma nsLoop_fst_append (iso : Bool) (pres : String → Bool) :
    ∀ (table : List (String × Nat)) (es : List Event) (acc : Nat),
      ∃ tl, (nsLoop iso pres es acc table).1 = es ++ tl := by
  intro table
  induction table with
  | nil => intro es acc; exact ⟨[], by simp [nsLoop]⟩
  | cons p rest ih =>
    intro es acc
    rcases p with ⟨name, flag⟩
    unfold nsLoop
    by_cases h1 : flag = CLONE_NEWPID
    · simpa [h1] using ih es acc
    · by_cases h2 : flag = CLONE_NEWNET ∧ iso = false
      · simpa [h1, h2] using ih es acc
      · by_cases h3 : pres name
        · simpa [h1, h2, h3] using ih es (acc ||| flag)
        · rcases ih (es ++ [Event.warn ("Namespace type " ++ name ++ " not supported on this system")]) acc with ⟨tl, htl⟩
          refine ⟨Event.warn ("Namespace type " ++ name ++ " not supported on this system") :: tl, ?_⟩
          simp [h1, h2, h3, htl]

lemma nsLoop_events (iso : Bool) (pres : String → Bool) :
    ∀ (table : List (String × Nat)) (es : List Event) (acc : Nat) (e : Event),
      e ∈ (nsLoop iso pres es acc table).1 → e ∈ es ∨ ∃ s, e = Event.warn s := by
  intro table
  induction table with
  | nil =>
    intro es acc e he
    exact Or.inl (by simpa [nsLoop] using he)
  | cons p rest ih =>
    intro es acc e he
    rcases p with ⟨name, flag⟩
    unfold nsLoop at he
    by_cases h1 : flag = CLONE_NEWPID
    · exact ih es acc e (by simpa [h1] using he)
    · by_cases h2 : flag = CLONE_NEWNET ∧ iso = false
      · exact ih es acc e (by simpa [h1, h2] using he)
      · by_cases h3 : pres name
        · exact ih es (acc ||| flag) e (by simpa [h1, h2, h3] using he)
        · have he2 := ih _ acc e (by simpa [h1, h2, h3] using he)
          rcases he2 with hm | hw
          · rcases List.mem_append.mp hm with hm2 | hm2
            · exact Or.inl hm2
            · exact Or.inr ⟨_, by simpa using hm2⟩
          · exact Or.inr hw

lemma nsLoop_and_zero (iso : Bool) (pres : String → Bool) (c : Nat) :
    ∀ (table : List (String × Nat)) (es : List Event) (acc : Nat),
      (∀ p ∈ table, p.2 &&& c = 0 ∨ p.2 = CLONE_NEWPID ∨
        (p.2 = CLONE_NEWNET ∧ iso = false) ∨ pres p.1 = false) →
      acc &&& c = 0 →
      (nsLoop iso pres es acc table).2 &&& c = 0 := by
  intro table
  induction table with
  | nil => intro es acc _ hacc; simpa [nsLoop] using hacc
  | cons p rest ih =>
    intro es acc htab hacc
    rcases p with ⟨name, flag⟩
    have htl : ∀ q ∈ rest, q.2 &&& c = 0 ∨ q.2 = CLONE_NEWPID ∨
        (q.2 = CLONE_NEWNET ∧ iso = false) ∨ pres q.1 = false :=
      fun q hq => htab q (List.mem_cons_of_mem _ hq)
    have hhd := htab (name, flag) (List.mem_cons_self _ _)
    unfold nsLoop
    by_cases h1 : flag = CLONE_NEWPID
    · simpa [h1] using ih es acc htl hacc
    · by_cases h2 : flag = CLONE_NEWNET ∧ iso = false
      · simpa [h1, h2] using ih es acc htl hacc
      · by_cases h3 : pres name
        · have hflag : flag &&& c = 0 := by
            rcases hhd with h | h | h | h
            · exact h
            · exact absurd h h1
            · exact absurd h h2
            · simp at h; rw [h] at h3; simp at h3
          simpa [h1, h2, h3] using ih es (acc ||| flag) htl (or_and_eq_zero hacc hflag)
        · simpa [h1, h2, h3] using ih _ acc htl hacc

lemma nsLoop_warn_mem (iso : Bool) (pres : String → Bool) :
    ∀ (table : List (String × Nat)) (es : List Event) (acc : Nat)
      (name : String) (flag : Nat),
      (name, flag) ∈ table → flag ≠ CLONE_NEWPID →
      ¬(flag = CLONE_NEWNET ∧ iso = false) → pres name = false →
      Event.warn ("Namespace type " ++ name ++ " not supported on this system")
        ∈ (nsLoop iso pres es acc table).1 := by
  intro table
  induction table with
  | nil => intro es acc name flag h; simp at h
  | cons p rest ih =>
    intro es acc name flag hmem hpid hnet hpres
    rcases p with ⟨n2, f2⟩
    rcases List.mem_cons.mp hmem with heq | htl
    · injection heq with h1 h2
      subst h1
      subst h2
      unfold nsLoop
      rcases nsLoop_fst_append iso pres rest
        (es ++ [Event.warn ("Namespace type " ++ name ++ " not supported on this system")]) acc with ⟨tl, htlr⟩
      simp [hpid, hnet, hpres, htlr]
    · unfold nsLoop
      by_cases h1 : f2 = CLONE_NEWPID
      · simpa [h1] using ih es acc name flag htl hpid hnet hpres
      · by_cases h2 : f2 = CLONE_NEWNET ∧ iso = false
        · simpa [h1, h2] using ih es acc name flag htl hpid hnet hpres
        · by_cases h3 : pres n2
          · simpa [h1, h2, h3] using ih es (acc ||| f2) name flag htl hpid hnet hpres
          · simpa [h1, h2, h3] using ih _ acc name flag htl hpid hnet hpres

lemma create_namespaces_ok_iff {cfg : PID1Cfg} {w : World} :
    (create_namespaces cfg w).2 = Except.ok () ↔
      w.unshareOk (requested_unshare_flags cfg w) = true := by
  unfold create_namespaces create_namespaces_t requested_unshare_flags
  by_cases h : w.unshareOk (nsLoop cfg.isolateNetworking w.nsPathPresent [] 0 NAMESPACES).2
  · simp [h]
  · simp [h]

lemma create_namespaces_ok_tr {cfg : PID1Cfg} {w : World}
    (h : w.unshareOk (requested_unshare_flags cfg w) = true) :
    create_namespaces cfg w =
      ((nsLoop cfg.isolateNetworking w.nsPathPresent [] 0 NAMESPACES).1 ++
        [Event.unshareCall (requested_unshare_flags cfg w)], Except.ok ()) := by
  unfold create_namespaces create_namespaces_t requested_unshare_flags at *
  simp [h]

lemma create_namespaces_unshare_mem {cfg : PID1Cfg} {w : World} {f : Nat}
    (h : Event.unshareCall f ∈ (create_namespaces cfg w).1) :
    f = requested_unshare_flags cfg w := by
  unfold create_namespaces create_namespaces_t at h
  by_cases hu : w.unshareOk (nsLoop cfg.isolateNetworking w.nsPathPresent [] 0 NAMESPACES).2
  · rw [if_pos hu] at h
    simp only at h
    rcases List.mem_append.mp h with hm | hm
    · rcases nsLoop_events _ _ _ _ _ _ hm with hm2 | ⟨s, hs⟩
      · simp at hm2
      · simp at hs
    · simp only [List.mem_singleton, Event.unshareCall.injEq] at hm
      exact hm
  · rw [if_neg hu] at h
    simp only at h
    rcases nsLoop_events _ _ _ _ _ _ h with hm2 | ⟨s, hs⟩
    · simp at hm2
    · simp at hs

lemma allEv_seqR {P : Event → Prop} {a b : Tr} (ha : allEv P a) (hb : allEv P b) :
    allEv P (seqR a b) := by
  intro e he
  rcases mem_seqR he with h | h
  · exact ha e h
  · exact hb e h

lemma allEv_atomIf {P : Event → Prop} {c : Bool} {ev : Event} {s : String}
    (h : P ev) : allEv P (atomIf c ev s) := by
  intro e he
  rw [mem_atomIf he]
  exact h

lemma allEv_create_device_node {P : Event → Prop} {w : World} {name : String}
    {major minor mode : Nat} {blk : Bool}
    (h1 : ∀ p m d, P (Event.mknodCall p m d)) (h2 : ∀ p m, P (Event.chmodCall p m)) :
    allEv P (create_device_node w name major minor mode blk) := by
  unfold create_device_node
  exact allEv_seqR (allEv_atomIf (h1 _ _ _)) (allEv_atomIf (h2 _ _))

lemma allEv_mount_defaults_t {P : Event → Prop} {w : World}
    (h1 : ∀ p, P (Event.mkdirParents p)) (h2 : ∀ a b c d e, P (Event.mountCall a b c d e)) :
    ∀ table, allEv P (mount_defaults_t w table) := by
  intro table
  induction table with
  | nil => intro e he; simp [mount_defaults_t] at he
  | cons m rest ih =>
    unfold mount_defaults_t mountOne
    exact allEv_seqR (allEv_seqR (allEv_atomIf (h1 _)) (allEv_atomIf (h2 _ _ _ _ _))) ih

lemma allEv_dev_nodes_t {P : Event → Prop} {w : World}
    (h1 : ∀ p m d, P (Event.mknodCall p m d)) (h2 : ∀ p m, P (Event.chmodCall p m)) :
    ∀ table, allEv P (create_default_dev_nodes_t w table) := by
  intro table
  induction table with
  | nil => intro e he; simp [create_default_dev_nodes_t] at he
  | cons d rest ih =>
    unfold create_default_dev_nodes_t
    exact allEv_seqR (allEv_create_device_node h1 h2) ih

lemma allEv_loopNodes {P : Event → Prop} {w : World}
    (h1 : ∀ p m d, P (Event.mknodCall p m d)) (h2 : ∀ p m, P (Event.chmodCall p m)) :
    ∀ n i, allEv P (loopNodes w i n) := by
  intro n
  induction n with
  | zero => intro i e he; simp [loopNodes] at he
  | succ k ih =>
    intro i
    unfold loopNodes
    exact allEv_seqR (allEv_create_device_node h1 h2) (ih (i + 1))

lemma allEv_tmpfsOne {P : Event → Prop} {w : World} {m : MountEntry}
    (h1 : ∀ p, P (Event.runTmpfiles p)) (h2 : ∀ s, P (Event.debugLog s)) :
    allEv P (tmpfsOne w m) := by
  unfold tmpfsOne
  rcases hr : w.tmpfilesRun m.destination with st | out
  · intro e he
    have he2 : e ∈ [Event.runTmpfiles m.destination] := he
    simp only [List.mem_singleton] at he2
    rw [he2]
    exact h1 _
  · intro e he
    have he2 : e ∈ Event.runTmpfiles m.destination ::
        (if out = "" then []
         else [Event.debugLog ("systemd-tmpfiles output: " ++ out)]) := he
    simp only [List.mem_cons] at he2
    rcases he2 with rfl | he3
    · exact h1 _
    · by_cases ho : out = ""
      · simp [ho] at he3
      · simp only [if_neg ho, List.mem_singleton] at he3
        rw [he3]
        exact h2 _

lemma allEv_tmpfsLoop {P : Event → Prop} {w : World}
    (h1 : ∀ p, P (Event.runTmpfiles p)) (h2 : ∀ s, P (Event.debugLog s)) :
    ∀ table, allEv P (tmpfsLoop w table) := by
  intro table
  induction table with
  | nil => intro e he; simp [tmpfsLoop] at he
  | cons m rest ih =>
    unfold tmpfsLoop
    by_cases ht : m.fstype = "tmpfs"
    · rw [if_pos ht]
      exact allEv_seqR (allEv_tmpfsOne h1 h2) ih
    · rw [if_neg ht]
      exact ih

lemma allEv_create_namespaces {P : Event → Prop} {cfg : PID1Cfg} {w : World}
    (h1 : ∀ s, P (Event.warn s)) (h2 : ∀ f, P (Event.unshareCall f)) :
    allEv P (create_namespaces cfg w) := by
  unfold create_namespaces create_namespaces_t
  by_cases hu : w.unshareOk (nsLoop cfg.isolateNetworking w.nsPathPresent [] 0 NAMESPACES).2
  · rw [if_pos hu]
    intro e he
    simp only at he
    rcases List.mem_append.mp he with hm | hm
    · rcases nsLoop_events _ _ _ _ _ _ hm with hm2 | ⟨s, rfl⟩
      · simp at hm2
      · exact h1 s
    · simp only [List.mem_singleton] at hm
      rw [hm]
      exact h2 _
  · rw [if_neg hu]
    intro e he
    simp only at he
    rcases nsLoop_events _ _ _ _ _ _ he with hm2 | ⟨s, rfl⟩
    · simp at hm2
    · exact h1 s

lemma allEv_setup_root_mount {P : Event → Prop} {cfg : PID1Cfg} {w : World}
    (h1 : ∀ a b c d e, P (Event.mountCall a b c d e))
    (h2 : ∀ p, P (Event.mkdirParents p)) (h3 : ∀ p, P (Event.chdir p))
    (h4 : ∀ a b, P (Event.pivotRootCall a b)) (h5 : ∀ p, P (Event.chroot p)) :
    allEv P (setup_root_mount cfg w) := by
  unfold setup_root_mount
  exact allEv_seqR (allEv_atomIf (h1 _ _ _ _ _))
    (allEv_seqR (allEv_atomIf (h2 _))
      (allEv_seqR (allEv_atomIf (h3 _))
        (allEv_seqR (allEv_atomIf (h4 _ _)) (allEv_atomIf (h5 _)))))

lemma allEv_create_tmpfs_dirs {P : Event → Prop} {w : World}
    (h1 : ∀ p, P (Event.runTmpfiles p)) (h2 : ∀ s, P (Event.debugLog s))
    (h3 : ∀ s, P (Event.warn s)) :
    allEv P (create_tmpfs_dirs w) := by
  unfold create_tmpfs_dirs
  by_cases hp : w.tmpfilesPresent
  · rw [if_pos hp]
    exact allEv_tmpfsLoop h1 h2 _
  · rw [if_neg hp]
    intro e he
    simp only [List.mem_singleton] at he
    rw [he]
    exact h3 _

lemma setup_no_write (cfg : PID1Cfg) (w : World) :
    allEv (fun e => isWriteEv e = false) (setupSeq cfg w) := by
  unfold setupSeq steps_before_tmpfs umount_old_root atomUmount2 atomRmdir
    atomSethostname do_setsid
  refine allEv_seqR (allEv_seqR (allEv_atomIf rfl)
    (allEv_seqR ?_ (allEv_seqR ?_ (allEv_seqR ?_ (allEv_seqR ?_ ?_)))))
    (allEv_seqR ?_ (allEv_seqR (allEv_seqR (allEv_atomIf rfl) (allEv_atomIf rfl))
      (allEv_atomIf rfl)))
  · intro e he
    simp only [enable_zombie_reaping, List.mem_singleton] at he
    rw [he]
    rfl
  · refine allEv_create_namespaces ?_ ?_ <;> intros <;> rfl
  · refine allEv_setup_root_mount ?_ ?_ ?_ ?_ ?_ <;> intros <;> rfl
  · refine allEv_mount_defaults_t ?_ ?_ _ <;> intros <;> rfl
  · refine allEv_seqR (allEv_dev_nodes_t ?_ ?_ _)
      (allEv_seqR (allEv_create_device_node ?_ ?_) (allEv_loopNodes ?_ ?_ _ _)) <;>
        intros <;> rfl
  · refine allEv_create_tmpfs_dirs ?_ ?_ ?_ <;> intros <;> rfl

lemma setup_root_mount_ok_tr {cfg : PID1Cfg} {w : World}
    (h : (setup_root_mount cfg w).2 = Except.ok ()) :
    (setup_root_mount cfg w).1 = setup_root_mount_tr cfg := by
  unfold setup_root_mount atomMount atomMkdir atomChdir atomPivot atomChroot at h ⊢
  obtain ⟨m1, r1⟩ := seqR_snd_ok.mp h
  obtain ⟨m2, r2⟩ := seqR_snd_ok.mp r1
  obtain ⟨m3, r3⟩ := seqR_snd_ok.mp r2
  obtain ⟨m4, m5⟩ := seqR_snd_ok.mp r3
  rw [seqR_ok m1, seqR_ok m2, seqR_ok m3, seqR_ok m4,
    atomIf_ok m1, atomIf_ok m2, atomIf_ok m3, atomIf_ok m4, atomIf_ok m5]
  simp [setup_root_mount_tr]

lemma setup_ok_decomp {cfg : PID1Cfg} {w : World}
    (h : (setupSeq cfg w).2 = Except.ok ()) :
    ∃ B, (setupSeq cfg w).1 =
      ((do_setsid w).1 ++ (enable_zombie_reaping.1 ++ (create_namespaces cfg w).1)) ++
        setup_root_mount_tr cfg ++ B := by
  unfold setupSeq steps_before_tmpfs at h ⊢
  obtain ⟨hb, hr2⟩ := seqR_snd_ok.mp h
  obtain ⟨h1, hb2⟩ := seqR_snd_ok.mp hb
  obtain ⟨h2, hb3⟩ := seqR_snd_ok.mp hb2
  obtain ⟨h3, hb4⟩ := seqR_snd_ok.mp hb3
  obtain ⟨h4, h5⟩ := seqR_snd_ok.mp hb4
  refine ⟨(seqR (mount_defaults w)
      (seqR (create_default_dev_nodes w) (create_loop_devices w))).1 ++
    (seqR (create_tmpfs_dirs w)
      (seqR (umount_old_root w) (atomSethostname w HOSTNAME))).1, ?_⟩
  rw [seqR_ok hb, seqR_ok h1, seqR_ok h2, seqR_ok h3, seqR_ok h4,
    setup_root_mount_ok_tr h4]
  simp [List.append_assoc]

lemma run_ok_shape {cfg : PID1Cfg} {w : World} {d : String}
    (h : (run cfg w d).2 = Except.ok 0) :
    w.pid = 1 ∧ (setupSeq cfg w).2 = Except.ok () ∧ w.writeOk = true ∧
      (run cfg w d).1 = (setupSeq cfg w).1 ++ readyTail cfg := by
  by_cases hp : w.pid = 1
  · rcases hs : (setupSeq cfg w).2 with er | u
    · exfalso
      unfold run at h
      rw [if_neg (by simp [hp])] at h
      simp only [hs] at h
      exact absurd h (by simp)
    · cases u
      by_cases hw : w.writeOk
      · refine ⟨hp, rfl, hw, ?_⟩
        unfold run
        rw [if_neg (by simp [hp])]
        simp only [hs, if_pos hw]
      · exfalso
        unfold run at h
        rw [if_neg (by simp [hp])] at h
        simp only [hs, if_neg hw] at h
        exact absurd h (by simp)
  · exfalso
    unfold run at h
    rw [if_pos (by simp [hp])] at h
    simp at h

lemma run_err_trace {cfg : PID1Cfg} {w : World} {d : String} {er : Err}
    (h : (run cfg w d).2 = Except.error er) :
    (run cfg w d).1 = [] ∨ (run cfg w d).1 = (setupSeq cfg w).1 := by
  by_cases hp : w.pid = 1
  · rcases hs : (setupSeq cfg w).2 with er2 | u
    · right
      unfold run
      rw [if_neg (by simp [hp])]
      simp only [hs]
    · cases u
      by_cases hw : w.writeOk
      · exfalso
        unfold run at h
        rw [if_neg (by simp [hp])] at h
        simp only [hs, if_pos hw] at h
        exact absurd h (by simp)
      · right
        unfold run
        rw [if_neg (by simp [hp])]
        simp only [hs, if_neg hw]
  · left
    unfold run
    rw [if_pos (by simp [hp])]

/-- C7: if the process's own identifier is not PID 1 of its namespace, run
raises the identity-check ValueError immediately and emits no event at all —
in particular no session start, no zombie-reaping setup, no namespace
operation and no mount operation is attempted. -/
theorem C7_identity_check_aborts_first (cfg : PID1Cfg) (w : World) (d : String)
    (h : w.pid ≠ 1) :
    run cfg w d =
      ([], Except.error
        (Err.valueError "We are not actually PID1, exiting for safety reasons")) := by
  unfold run
  rw [if_pos h]

/-- Witness for C7 at a concrete world whose process id is 2. -/
theorem C7_witness :
    run cfg1 wNotPid1 "" =
      ([], Except.error
        (Err.valueError "We are not actually PID1, exiting for safety reasons")) :=
  C7_identity_check_aborts_first cfg1 wNotPid1 "" (by decide)

/-- C9: run is independent of the content the blocking read delivers
(including the empty end-of-stream read), and whenever it returns a status at
all that status is 0. -/
theorem C9_returns_zero_ignores_read (cfg : PID1Cfg) (w : World)
    (d1 d2 : String) (n : Nat) :
    run cfg w d1 = run cfg w d2 ∧
    ((run cfg w d1).2 = Except.ok n → n = 0) ∧
    (w.pid = 1 → (setupSeq cfg w).2 = Except.ok () → w.writeOk = true →
      run cfg w d1 = ((setupSeq cfg w).1 ++ readyTail cfg, Except.ok 0)) := by
  refine ⟨rfl, ?_, ?_⟩
  · intro h
    by_cases hp : w.pid = 1
    · unfold run at h
      rw [if_neg (by simp [hp])] at h
      rcases hs : (setupSeq cfg w).2 with er | u
      · simp only [hs] at h
        exact absurd h (by simp)
      · cases u
        simp only [hs] at h
        by_cases hw : w.writeOk
        · rw [if_pos hw] at h
          simp only at h
          injection h with h2
          exact h2.symm
        · rw [if_neg hw] at h
          exact absurd h (by simp)
    · unfold run at h
      rw [if_pos (by simp [hp])] at h
      exact absurd h (by simp)
  · intro hp hs hw
    unfold run
    rw [if_neg (by simp [hp])]
    simp only [hs, if_pos hw]

/-- Witness for C9 at a concrete all-succeeding world: the run result does
not depend on the read content, and the returned status is 0. -/
theorem C9_witness :
    run cfg1 wAll "" = run cfg1 wAll "x" ∧ (0 : Nat) = 0 ∧
    run cfg1 wAll "" = ((setupSeq cfg1 wAll).1 ++ readyTail cfg1, Except.ok 0) :=
  ⟨(C9_returns_zero_ignores_read cfg1 wAll "" "x" 0).1,
   (C9_returns_zero_ignores_read cfg1 wAll "" "x" 0).2.1 rfl,
   (C9_returns_zero_ignores_read cfg1 wAll "" "x" 0).2.2 rfl rfl rfl⟩

/-- C2: on a successful run the whole trace is the setup trace followed by
the ready tail, the setup trace contains no control-channel write, and the
readiness marker is written exactly once; on any failing run the marker is
never written. -/
theorem C2_ready_once_after_setup (cfg : PID1Cfg) (w : World) (d : String) :
    ((run cfg w d).2 = Except.ok 0 →
      (setupSeq cfg w).2 = Except.ok () ∧
      (run cfg w d).1 = (setupSeq cfg w).1 ++ readyTail cfg ∧
      (∀ e ∈ (setupSeq cfg w).1, isWriteEv e = false) ∧
      List.countP isWriteEv (run cfg w d).1 = 1) ∧
    (∀ er, (run cfg w d).2 = Except.error er →
      ∀ e ∈ (run cfg w d).1, isWriteEv e = false) := by
  constructor
  · intro h
    obtain ⟨hp, hs, hw, htr⟩ := run_ok_shape h
    refine ⟨hs, htr, setup_no_write cfg w, ?_⟩
    rw [htr, List.countP_append]
    have h0 : List.countP isWriteEv (setupSeq cfg w).1 = 0 :=
      List.countP_eq_zero.mpr
        (fun a ha => by rw [setup_no_write cfg w a ha]; simp)
    have h1 : List.countP isWriteEv (readyTail cfg) = 1 := rfl
    rw [h0, h1]
  · intro er h e he
    rcases run_err_trace h with h2 | h2
    · rw [h2] at he
      simp at he
    · rw [h2] at he
      exact setup_no_write cfg w e he

/-- Witness for C2: the success branch at an all-succeeding world and the
failure branch at a world that is not PID 1. -/
theorem C2_witness :
    ((setupSeq cfg1 wAll).2 = Except.ok () ∧
      (run cfg1 wAll "").1 = (setupSeq cfg1 wAll).1 ++ readyTail cfg1 ∧
      (∀ e ∈ (setupSeq cfg1 wAll).1, isWriteEv e = false) ∧
      List.countP isWriteEv (run cfg1 wAll "").1 = 1) ∧
    (∀ e ∈ (run cfg1 wNotPid1 "").1, isWriteEv e = false) :=
  ⟨(C2_ready_once_after_setup cfg1 wAll "").1 rfl,
   (C2_ready_once_after_setup cfg1 wNotPid1 "").2
     (Err.valueError "We are not actually PID1, exiting for safety reasons") rfl⟩

/-- C3: on every successful run the trace splits as A, then the root-pivot
sequence (the non-propagating remount of /, mkdir of old_root, chdir, the
pivot, the chroot), then B — where A contains the unshare call of the
namespace-isolation step and contains no mount, no device-node creation and
no unmount event, so the pivot happens strictly after namespace isolation and
strictly before every mount-table entry, device node and old-root detach. -/
theorem C3_pivot_after_ns_before_mounts (cfg : PID1Cfg) (w : World) (d : String)
    (h : (run cfg w d).2 = Except.ok 0) :
    ∃ A B, (run cfg w d).1 = A ++ setup_root_mount_tr cfg ++ B ∧
      Event.unshareCall (requested_unshare_flags cfg w) ∈ A ∧
      ∀ e ∈ A, isMountEv e = false ∧ isMknodEv e = false ∧ isUmount2Ev e = false := by
  obtain ⟨hp, hs, hw, htr⟩ := run_ok_shape h
  obtain ⟨B, hB⟩ := setup_ok_decomp hs
  have hok : w.unshareOk (requested_unshare_flags cfg w) = true := by
    have hns : (create_namespaces cfg w).2 = Except.ok () := by
      unfold setupSeq steps_before_tmpfs at hs
      exact (seqR_snd_ok.mp
        (seqR_snd_ok.mp (seqR_snd_ok.mp (seqR_snd_ok.mp hs).1).2).2).1
    exact create_namespaces_ok_iff.mp hns
  refine ⟨(do_setsid w).1 ++ (enable_zombie_reaping.1 ++ (create_namespaces cfg w).1),
    B ++ readyTail cfg, ?_, ?_, ?_⟩
  · rw [htr, hB]
    simp [List.append_assoc]
  · rw [create_namespaces_ok_tr hok]
    simp
  · intro e he
    rcases List.mem_append.mp he with h1 | h12
    · rw [mem_atomIf h1]
      exact ⟨rfl, rfl, rfl⟩
    · rcases List.mem_append.mp h12 with h2 | h3
      · simp only [enable_zombie_reaping, List.mem_singleton] at h2
        rw [h2]
        exact ⟨rfl, rfl, rfl⟩
      · have hns : allEv
            (fun e => isMountEv e = false ∧ isMknodEv e = false ∧ isUmount2Ev e = false)
            (create_namespaces cfg w) := by
          refine allEv_create_namespaces ?_ ?_ <;> intros <;> exact ⟨rfl, rfl, rfl⟩
        exact hns e h3

/-- Witness for C3 at a concrete all-succeeding world. -/
theorem C3_witness :
    ∃ A B, (run cfg1 wAll "").1 = A ++ setup_root_mount_tr cfg1 ++ B ∧
      Event.unshareCall (requested_unshare_flags cfg1 wAll) ∈ A ∧
      ∀ e ∈ A, isMountEv e = false ∧ isMknodEv e = false ∧ isUmount2Ev e = false :=
  C3_pivot_after_ns_before_mounts cfg1 wAll "" rfl

/-- C4: for every configuration and every kernel, the flag set requested by
the namespace-isolation step never contains the PID-isolation flag, and
neither does the argument of any unshare call the step emits. -/
theorem C4_pid_flag_never_requested (cfg : PID1Cfg) (w : World) :
    requested_unshare_flags cfg w &&& CLONE_NEWPID = 0 ∧
    ∀ f, Event.unshareCall f ∈ (create_namespaces cfg w).1 →
      f &&& CLONE_NEWPID = 0 := by
  have hmain : requested_unshare_flags cfg w &&& CLONE_NEWPID = 0 := by
    unfold requested_unshare_flags
    refine nsLoop_and_zero _ _ _ NAMESPACES [] 0 ?_ (by simp)
    intro p hp
    fin_cases hp
    · exact Or.inl (by decide)
    · exact Or.inl (by decide)
    · exact Or.inl (by decide)
    · exact Or.inl (by decide)
    · exact Or.inr (Or.inl (by decide))
  refine ⟨hmain, fun f hf => ?_⟩
  rw [create_namespaces_unshare_mem hf]
  exact hmain

/-- Witness for C4: the unshare call of a concrete all-supported world
carries no PID flag. -/
theorem C4_witness :
    requested_unshare_flags cfg1 wAll &&& CLONE_NEWPID = 0 :=
  (C4_pid_flag_never_requested cfg1 wAll).2
    (requested_unshare_flags cfg1 wAll) (by decide)

/-- C5: when isolate_networking is false the requested flag set never
contains the network-isolation flag, even when the kernel supports every
namespace kind. -/
theorem C5_net_flag_excluded (cfg : PID1Cfg) (w : World)
    (h : cfg.isolateNetworking = false) :
    requested_unshare_flags cfg w &&& CLONE_NEWNET = 0 ∧
    ∀ f, Event.unshareCall f ∈ (create_namespaces cfg w).1 →
      f &&& CLONE_NEWNET = 0 := by
  have hmain : requested_unshare_flags cfg w &&& CLONE_NEWNET = 0 := by
    unfold requested_unshare_flags
    refine nsLoop_and_zero _ _ _ NAMESPACES [] 0 ?_ (by simp)
    intro p hp
    fin_cases hp
    · exact Or.inl (by decide)
    · exact Or.inl (by decide)
    · exact Or.inl (by decide)
    · exact Or.inr (Or.inr (Or.inl ⟨by decide, h⟩))
    · exact Or.inl (by decide)
  refine ⟨hmain, fun f hf => ?_⟩
  rw [create_namespaces_unshare_mem hf]
  exact hmain

/-- Witness for C5 at a concrete configuration with isolate_networking false
and a kernel supporting all namespace kinds. -/
theorem C5_witness :
    requested_unshare_flags cfg0 wAll &&& CLONE_NEWNET = 0 :=
  (C5_net_flag_excluded cfg0 wAll rfl).2
    (requested_unshare_flags cfg0 wAll) (by decide)

lemma create_namespaces_mem_left {cfg : PID1Cfg} {w : World} {e : Event}
    (h : e ∈ (nsLoop cfg.isolateNetworking w.nsPathPresent [] 0 NAMESPACES).1) :
    e ∈ (create_namespaces cfg w).1 := by
  unfold create_namespaces create_namespaces_t
  by_cases hu : w.unshareOk (nsLoop cfg.isolateNetworking w.nsPathPresent [] 0 NAMESPACES).2
  · rw [if_pos hu]
    exact List.mem_append_left _ h
  · rw [if_neg hu]
    exact h

/-- C6 (amended): for every NAMESPACES entry other than the PID flag and
other than the network flag when isolate_networking is false — if the
namespace-kind path is absent, a warning naming the kind is logged, the
requested flag set excludes that flag, the step aborts only if the unshare
syscall itself fails, and when unshare succeeds the syscall is attempted with
the remaining flags. -/
theorem C6_absent_kind_degrades (cfg : PID1Cfg) (w : World) (name : String)
    (flag : Nat) (hmem : (name, flag) ∈ NAMESPACES) (hpid : flag ≠ CLONE_NEWPID)
    (hnet : flag = CLONE_NEWNET → cfg.isolateNetworking = true)
    (habs : w.nsPathPresent name = false) :
    Event.warn ("Namespace type " ++ name ++ " not supported on this system")
        ∈ (create_namespaces cfg w).1 ∧
    requested_unshare_flags cfg w &&& flag = 0 ∧
    ((create_namespaces cfg w).2 = Except.ok () ↔
      w.unshareOk (requested_unshare_flags cfg w) = true) ∧
    (w.unshareOk (requested_unshare_flags cfg w) = true →
      Event.unshareCall (requested_unshare_flags cfg w)
        ∈ (create_namespaces cfg w).1) := by
  have hnet2 : ¬(flag = CLONE_NEWNET ∧ cfg.isolateNetworking = false) := by
    rintro ⟨h1, h2⟩
    rw [hnet h1] at h2
    exact absurd h2 (by simp)
  refine ⟨?_, ?_, create_namespaces_ok_iff, ?_⟩
  · exact create_namespaces_mem_left
      (nsLoop_warn_mem _ _ NAMESPACES [] 0 name flag hmem hpid hnet2 habs)
  · unfold requested_unshare_flags
    refine nsLoop_and_zero _ _ _ NAMESPACES [] 0 ?_ (by simp)
    have htab : ∀ p ∈ NAMESPACES,
        p.1 = name ∨ p.2 &&& flag = 0 ∨ p.2 = CLONE_NEWPID := by
      intro p hp
      fin_cases hmem <;> fin_cases hp <;> decide
    intro p hp
    rcases htab p hp with h | h | h
    · right; right; right
      rw [h]
      exact habs
    · left; exact h
    · right; left; exact h
  · intro hu
    rw [create_namespaces_ok_tr hu]
    simp

/-- Witness for C6 at the uts entry on a world with no namespace support. -/
theorem C6_witness :
    Event.warn ("Namespace type " ++ "uts" ++ " not supported on this system")
        ∈ (create_namespaces cfg1 wNoNs).1 ∧
    requested_unshare_flags cfg1 wNoNs &&& CLONE_NEWUTS = 0 ∧
    ((create_namespaces cfg1 wNoNs).2 = Except.ok () ↔
      wNoNs.unshareOk (requested_unshare_flags cfg1 wNoNs) = true) ∧
    (wNoNs.unshareOk (requested_unshare_flags cfg1 wNoNs) = true →
      Event.unshareCall (requested_unshare_flags cfg1 wNoNs)
        ∈ (create_namespaces cfg1 wNoNs).1) :=
  C6_absent_kind_degrades cfg1 wNoNs "uts" CLONE_NEWUTS (by decide) (by decide)
    (fun hx => absurd hx (by decide)) rfl

/-- C6 as literally stated is false at the network entry: with
isolate_networking false and the net namespace path absent, the entry is
skipped before the path check, so no warning about it is ever logged. -/
theorem C6_counterexample :
    ("net", CLONE_NEWNET) ∈ NAMESPACES ∧
    CLONE_NEWNET ≠ CLONE_NEWPID ∧
    wNoNs.nsPathPresent "net" = false ∧
    Event.warn ("Namespace type " ++ "net" ++ " not supported on this system")
      ∉ (create_namespaces cfg0 wNoNs).1 := by
  decide

lemma create_device_node_ok_tr {w : World} {name : String}
    {major minor mode : Nat} {blk : Bool}
    (hmk : w.mknodOk ("/dev/" ++ name) = true)
    (hch : w.chmodOk ("/dev/" ++ name) = true) :
    create_device_node w name major minor mode blk =
      ([Event.mknodCall ("/dev/" ++ name) (if blk then S_IFBLK else S_IFCHR)
          (makedev major minor),
        Event.chmodCall ("/dev/" ++ name) mode], Except.ok ()) := by
  unfold create_device_node atomMknod atomChmod
  simp only [atomIf_true hmk, atomIf_true hch, seqR]
  rfl

/-- C1 (amended): for every entry of a device-node table, the provisioner
creates a character special file at /dev/<name> carrying the device number
packed from (major, minor) and then chmods it to 0o666 — the entry's own
mode and kind fields play no role. -/
theorem C1_default_nodes_char_0666 (w : World) (table : List DeviceNode)
    (d : DeviceNode) (hmk : ∀ p, w.mknodOk p = true)
    (hch : ∀ p, w.chmodOk p = true) (hd : d ∈ table) :
    Event.mknodCall ("/dev/" ++ d.name) S_IFCHR (makedev d.major d.minor)
        ∈ (create_default_dev_nodes_t w table).1 ∧
    Event.chmodCall ("/dev/" ++ d.name) 0o666
        ∈ (create_default_dev_nodes_t w table).1 := by
  induction table with
  | nil => simp at hd
  | cons d0 rest ih =>
    unfold create_default_dev_nodes_t
    rw [create_device_node_ok_tr (hmk _) (hch _), seqR_ok rfl]
    rcases List.mem_cons.mp hd with rfl | htl
    · constructor <;> simp
    · obtain ⟨h1, h2⟩ := ih htl
      exact ⟨List.mem_append_right _ h1, List.mem_append_right _ h2⟩

/-- Witness for C1 at the null entry of the fixed table. -/
theorem C1_witness :
    Event.mknodCall ("/dev/" ++ "null") S_IFCHR (makedev 1 3)
        ∈ (create_default_dev_nodes_t wAll CONTAINER_DEVICE_NODES).1 ∧
    Event.chmodCall ("/dev/" ++ "null") 0o666
        ∈ (create_default_dev_nodes_t wAll CONTAINER_DEVICE_NODES).1 :=
  C1_default_nodes_char_0666 wAll CONTAINER_DEVICE_NODES
    ⟨"null", 1, 3, 0o666, DevKind.char⟩ (fun _ => rfl) (fun _ => rfl) (by decide)

/-- C1 as stated is false for an admissible DeviceNodeSpec entry whose kind
is block and whose mode is 0o660: the provisioner creates a character node
and chmods it to 0o666; no block mknod and no 0o660 chmod ever happens. -/
theorem C1_counterexample :
    (create_default_dev_nodes_t wAll [⟨"sda", 8, 0, 0o660, DevKind.block⟩]).1 =
      [Event.mknodCall "/dev/sda" S_IFCHR (makedev 8 0),
       Event.chmodCall "/dev/sda" 0o666] ∧
    S_IFCHR ≠ S_IFBLK ∧ (0o666 : Nat) ≠ 0o660 ∧
    Event.mknodCall "/dev/sda" S_IFBLK (makedev 8 0)
      ∉ (create_default_dev_nodes_t wAll [⟨"sda", 8, 0, 0o660, DevKind.block⟩]).1 ∧
    Event.chmodCall "/dev/sda" 0o660
      ∉ (create_default_dev_nodes_t wAll [⟨"sda", 8, 0, 0o660, DevKind.block⟩]).1 := by
  decide

/-- C8: the node created by create_device_node ends with exactly the
requested permission mode, whatever the ambient file-creation mask is,
because the mknod carries no permission bits (so the umask filters nothing
that matters) and the separate chmod then sets the mode exactly. -/
theorem C8_mode_exact_despite_umask (w : World) (umask : Nat) (fs : FS)
    (name : String) (major minor mode : Nat) (blk : Bool)
    (hmk : w.mknodOk ("/dev/" ++ name) = true)
    (hch : w.chmodOk ("/dev/" ++ name) = true)
    (hmode : mode &&& 0o7777 = mode) :
    applyEvents umask fs (create_device_node w name major minor mode blk).1
        ("/dev/" ++ name) =
      some ((if blk then S_IFBLK else S_IFCHR), mode) := by
  rw [create_device_node_ok_tr hmk hch]
  cases blk with
  | false =>
      simp [applyEvents, applyEvent, fsSet, S_IFCHR, S_IFMT, hmode]
      decide
  | true =>
      simp [applyEvents, applyEvent, fsSet, S_IFBLK, S_IFMT, hmode]
      decide

/-- Witness for C8: a node of mode 0o666 created under umask 0o077 on an
empty file system still carries mode 0o666. -/
theorem C8_witness :
    applyEvents 0o077 (fun _ => none)
        (create_device_node wAll "null" 1 3 0o666 false).1 ("/dev/" ++ "null") =
      some (S_IFCHR, 0o666) := by
  have h := C8_mode_exact_despite_umask wAll 0o077 (fun _ => none) "null" 1 3
    0o666 false rfl rfl (by decide)
  simpa using h

lemma tmpfsOne_ok_iff {w : World} {m : MountEntry} :
    (tmpfsOne w m).2 = Except.ok () ↔
      ∃ out, w.tmpfilesRun m.destination = Except.ok out := by
  unfold tmpfsOne
  rcases hr : w.tmpfilesRun m.destination with st | out
  · show Except.error (Err.calledProcessError st) = Except.ok () ↔ _
    simp
  · show Except.ok () = Except.ok () ↔ _
    simp

lemma tmpfsLoop_ok_iff {w : World} :
    ∀ table, (tmpfsLoop w table).2 = Except.ok () ↔
      ∀ m ∈ table, m.fstype = "tmpfs" →
        ∃ out, w.tmpfilesRun m.destination = Except.ok out := by
  intro table
  induction table with
  | nil => simp [tmpfsLoop]
  | cons m rest ih =>
    unfold tmpfsLoop
    by_cases ht : m.fstype = "tmpfs"
    · rw [if_pos ht, seqR_snd_ok, tmpfsOne_ok_iff, ih, List.forall_mem_cons, ht]
      simp
    · rw [if_neg ht, ih, List.forall_mem_cons]
      simp [ht]

/-- C10: when systemd-tmpfiles is absent, create_tmpfs_dirs only logs a
warning and succeeds; when it is present, the step succeeds exactly when
every invocation for a tmpfs-typed mount destination exits successfully; and
when an invocation fails with a non-zero status while the earlier setup steps
succeeded, the whole run aborts with that CalledProcessError. -/
theorem C10_tmpfiles_failure_fatal (cfg : PID1Cfg) (w : World) (d : String)
    (st : Nat) :
    (w.tmpfilesPresent = false →
      create_tmpfs_dirs w = ([Event.warn tmpfilesWarnText], Except.ok ())) ∧
    (w.tmpfilesPresent = true →
      ((create_tmpfs_dirs w).2 = Except.ok () ↔
        ∀ m ∈ CONTAINER_MOUNTS, m.fstype = "tmpfs" →
          ∃ out, w.tmpfilesRun m.destination = Except.ok out)) ∧
    (w.pid = 1 →
      (steps_before_tmpfs cfg w).2 = Except.ok () →
      (create_tmpfs_dirs w).2 = Except.error (Err.calledProcessError st) →
      (run cfg w d).2 = Except.error (Err.calledProcessError st)) := by
  refine ⟨?_, ?_, ?_⟩
  · intro h
    unfold create_tmpfs_dirs
    rw [if_neg (by simp [h])]
  · intro h
    unfold create_tmpfs_dirs
    rw [if_pos (by simp [h])]
    exact tmpfsLoop_ok_iff CONTAINER_MOUNTS
  · intro hp hok herr
    have hsetup : (setupSeq cfg w).2 = Except.error (Err.calledProcessError st) := by
      unfold setupSeq
      rw [seqR_ok hok, seqR_err herr]
    unfold run
    rw [if_neg (by simp [hp])]
    simp only [hsetup]

/-- Witness for C10: the warning branch at a world without the tool, and a
whole-run abort with CalledProcessError 1 at a world where every tmpfiles
invocation exits with status 1. -/
theorem C10_witness :
    create_tmpfs_dirs wNoTool = ([Event.warn tmpfilesWarnText], Except.ok ()) ∧
    ((create_tmpfs_dirs wTmpErr).2 = Except.ok () ↔
      ∀ m ∈ CONTAINER_MOUNTS, m.fstype = "tmpfs" →
        ∃ out, wTmpErr.tmpfilesRun m.destination = Except.ok out) ∧
    (run cfg1 wTmpErr "").2 = Except.error (Err.calledProcessError 1) :=
  ⟨(C10_tmpfiles_failure_fatal cfg1 wNoTool "" 1).1 rfl,
   (C10_tmpfiles_failure_fatal cfg1 wTmpErr "" 1).2.1 rfl,
   (C10_tmpfiles_failure_fatal cfg1 wTmpErr "" 1).2.2 rfl rfl rfl⟩

end Furnace
